import Mathlib

/-!
Verification of the `cgp-reth-sdk` client (`src/ethpending.rs`).

The development shallowly embeds the serde-driven (de)serialization logic of
the single source file. Collaborator-owned payload types (`CallRequest`,
`BlockId`, `BlockOverrides`, `StateOverride`, `GethDebugTracingOptions`,
`Log`, `TransactionReceipt`, `GethTrace`) are opaque pass-through JSON data
in the original design, so they are represented directly by JSON values.
JSON numbers are modelled as integers, which covers every numeral this
client's wire format exchanges (`id`, `totalGasUsed`); the text parser
models `serde_json` parsing on the corresponding JSON fragment.
-/

/-- JSON values, with numbers restricted to integers (the only numerals the
client's wire format uses). -/
inductive Json where
  | null : Json
  | bool (b : Bool) : Json
  | num (n : Int) : Json
  | str (s : String) : Json
  | arr (elems : List Json) : Json
  | obj (fields : List (String × Json)) : Json
deriving Repr

/-- Lookup of the first binding of a key in a JSON object's field list,
mirroring how a serde map deserializer locates a field. -/
def lookupField : List (String × Json) → String → Option Json
  | [], _ => none
  | (k', v) :: rest, k => if k' = k then some v else lookupField rest k

/-- Field lookup on a JSON value; `none` on non-objects. -/
def Json.lookup (j : Json) (k : String) : Option Json :=
  match j with
  | Json.obj fields => lookupField fields k
  | _ => none

/-- Removal of every binding of a key from a field list (used to state
claims about response bodies that omit a key). -/
def removeKey (fields : List (String × Json)) (k : String) : List (String × Json) :=
  fields.filter (fun p => p.1 ≠ k)

/-- Conditional removal of a key, to quantify over present/absent cases. -/
def removeIf (b : Bool) (k : String) (fields : List (String × Json)) :
    List (String × Json) :=
  if b then removeKey fields k else fields

/-- Serialization of a Rust `Option<T>` in a (tuple) position where the slot
is kept: `None` becomes explicit JSON `null`. -/
def optToJson : Option Json → Json
  | none => Json.null
  | some v => v

/-- Boolean success test for `Except`. -/
def isOkB : Except String α → Bool
  | Except.ok _ => true
  | Except.error _ => false

/-! ## JSON text parser

Models `serde_json` text parsing for the JSON fragment this client
exchanges: objects, arrays, strings (with the single-character escapes),
integer numerals, `true`/`false`/`null`. -/

/-- Whitespace skipping, as in JSON lexing. -/
def skipWs : List Char → List Char
  | c :: cs =>
      if c = ' ' ∨ c = '\n' ∨ c = '\t' ∨ c = '\r' then skipWs cs else c :: cs
  | [] => []

/-- Match an expected literal tail (e.g. `ull` after `n`). -/
def expectLit : List Char → List Char → Option (List Char)
  | [], cs => some cs
  | l :: ls, c :: cs => if c = l then expectLit ls cs else none
  | _ :: _, [] => none

/-- Single-character string escapes of JSON. -/
def escChar : Char → Option Char
  | '"' => some '"'
  | '\\' => some '\\'
  | '/' => some '/'
  | 'b' => some (Char.ofNat 8)
  | 'f' => some (Char.ofNat 12)
  | 'n' => some '\n'
  | 'r' => some '\r'
  | 't' => some '\t'
  | _ => none

/-- String body parsing, after the opening quote; returns the decoded
characters and the rest of the input past the closing quote. -/
def parseStrChars : List Char → Option (List Char × List Char)
  | [] => none
  | '"' :: rest => some ([], rest)
  | '\\' :: e :: rest =>
      match escChar e with
      | some c =>
          match parseStrChars rest with
          | some (s, r) => some (c :: s, r)
          | none => none
      | none => none
  | c :: rest =>
      if c = '\\' then none
      else
        match parseStrChars rest with
        | some (s, r) => some (c :: s, r)
        | none => none

/-- Digit accumulation for integer numerals. -/
def parseNatAux : List Char → Nat → Nat × List Char
  | c :: cs, acc =>
      if c.isDigit then parseNatAux cs (acc * 10 + (c.toNat - '0'.toNat))
      else (acc, c :: cs)
  | [], acc => (acc, [])

/-- Unsigned integer numeral: at least one digit. -/
def parseNat : List Char → Option (Nat × List Char)
  | c :: cs =>
      if c.isDigit then some (parseNatAux (c :: cs) 0) else none
  | [] => none

/-- Integer numeral with optional leading minus sign. -/
def parseNum : List Char → Option (Json × List Char)
  | '-' :: cs =>
      match parseNat cs with
      | some (n, r) => some (Json.num (-(n : Int)), r)
      | none => none
  | cs =>
      match parseNat cs with
      | some (n, r) => some (Json.num (n : Int), r)
      | none => none

mutual

/-- JSON value parser (fuel-indexed recursive descent). -/
def parseVal : Nat → List Char → Option (Json × List Char)
  | 0, _ => none
  | fuel + 1, cs =>
      match skipWs cs with
      | [] => none
      | c :: rest =>
          if c = 'n' then
            match expectLit ['u', 'l', 'l'] rest with
            | some r => some (Json.null, r)
            | none => none
          else if c = 't' then
            match expectLit ['r', 'u', 'e'] rest with
            | some r => some (Json.bool true, r)
            | none => none
          else if c = 'f' then
            match expectLit ['a', 'l', 's', 'e'] rest with
            | some r => some (Json.bool false, r)
            | none => none
          else if c = '"' then
            match parseStrChars rest with
            | some (s, r) => some (Json.str (String.mk s), r)
            | none => none
          else if c = '[' then
            match skipWs rest with
            | ']' :: r => some (Json.arr [], r)
            | other => parseElems fuel other []
          else if c = '{' then
            match skipWs rest with
            | '}' :: r => some (Json.obj [], r)
            | other => parseMembers fuel other []
          else if c = '-' ∨ c.isDigit then parseNum (c :: rest)
          else none

/-- Array elements after `[`, at least one element expected. -/
def parseElems (fuel : Nat) (cs : List Char) (acc : List Json) :
    Option (Json × List Char) :=
  match fuel with
  | 0 => none
  | fuel + 1 =>
      match parseVal fuel cs with
      | none => none
      | some (v, rest) =>
          match skipWs rest with
          | ',' :: r => parseElems fuel r (acc ++ [v])
          | ']' :: r => some (Json.arr (acc ++ [v]), r)
          | _ => none

/-- Object members after `{`, at least one member expected. -/
def parseMembers (fuel : Nat) (cs : List Char) (acc : List (String × Json)) :
    Option (Json × List Char) :=
  match fuel with
  | 0 => none
  | fuel + 1 =>
      match skipWs cs with
      | '"' :: r =>
          match parseStrChars r with
          | none => none
          | some (k, r2) =>
              match skipWs r2 with
              | ':' :: r3 =>
                  match parseVal fuel r3 with
                  | none => none
                  | some (v, r4) =>
                      match skipWs r4 with
                      | ',' :: r5 => parseMembers fuel r5 (acc ++ [(String.mk k, v)])
                      | '}' :: r5 => some (Json.obj (acc ++ [(String.mk k, v)]), r5)
                      | _ => none
              | _ => none
      | _ => none

end

/-- Top-level parse of a JSON document: one value, then only trailing
whitespace (as `serde_json::from_str` requires the input be consumed). -/
def Json.parse (s : String) : Option Json :=
  match parseVal (s.length + 1) s.toList with
  | some (v, rest) => if skipWs rest = [] then some v else none
  | none => none

/-! ## Data model (`src/ethpending.rs`)

Collaborator types are opaque JSON pass-through data. -/

/-- Opaque `reth_rpc_types::CallRequest` (already-serializable JSON). -/
abbrev CallRequest := Json

/-- Opaque `reth_rpc_types::BlockId`. -/
abbrev BlockId := Json

/-- Opaque `reth_rpc_types::BlockOverrides`. -/
abbrev BlockOverrides := Json

/-- Opaque `reth_rpc_types::state::StateOverride`. -/
abbrev StateOverride := Json

/-- Opaque `GethDebugTracingOptions`. -/
abbrev GethDebugTracingOptions := Json

/-- Opaque `reth_rpc_types::Log`. -/
abbrev Log := Json

/-- Opaque `reth_rpc_types::TransactionReceipt`. -/
abbrev TransactionReceipt := Json

/-- Opaque `GethTrace`. -/
abbrev GethTrace := Json

/-- Options for Emulation (`EmulateOptions` in the source). -/
structure EmulateOptions where
  tracing_options : Option GethDebugTracingOptions
  state_overrides : Option StateOverride
  block_overrides : Option BlockOverrides

/-- Serde serialization of `EmulateOptions` itself, field by field in
declaration order with `rename_all = "camelCase"`:
`tracing_options` carries no skip attribute, so it is always emitted
(`None` as `null`), while `state_overrides` and `block_overrides` carry
`skip_serializing_if = "Option::is_none"` and are dropped when unset. -/
def EmulateOptions.toJson (o : EmulateOptions) : Json :=
  Json.obj
    ([("tracingOptions", optToJson o.tracing_options)]
      ++ (match o.state_overrides with
          | none => []
          | some v => [("stateOverrides", v)])
      ++ (match o.block_overrides with
          | none => []
          | some v => [("blockOverrides", v)]))

/-- Default value `"0x"` used by the `trieHash*` fields (`default_0x`). -/
def default_0x : String := "0x"

/-- Decoded result type (`TransactionSimulationInfo` in the source). -/
structure TransactionSimulationInfo where
  trace_debug_info : Option (List GethTrace)
  total_gas_used : Nat
  trie_hash_after : String
  trie_hash_before : String
  tx_logs : List Log
  tx_receipts : List TransactionReceipt

/-! ## Field decoders (serde derive semantics, lookup by field name) -/

/-- Decode of `Option<Vec<GethTrace>>`: a missing key or `null` is `None`;
an array is `Some`; anything else is a type error. -/
def decodeTraceField : Option Json → Except String (Option (List GethTrace))
  | none => Except.ok none
  | some Json.null => Except.ok none
  | some (Json.arr xs) => Except.ok (some xs)
  | some _ => Except.error "invalid type: expected array or null"

/-- Decode of a required `u64` field: missing key is an error; the numeral
must lie in the `u64` range. -/
def decodeU64Field (name : String) : Option Json → Except String Nat
  | none => Except.error ("missing field " ++ name)
  | some (Json.num n) =>
      if 0 ≤ n ∧ n < 2 ^ 64 then Except.ok n.toNat
      else Except.error "invalid value: out of range of u64"
  | some _ => Except.error "invalid type: expected u64"

/-- Decode of a required `String` field. -/
def decodeStringField (name : String) : Option Json → Except String String
  | none => Except.error ("missing field " ++ name)
  | some (Json.str s) => Except.ok s
  | some _ => Except.error "invalid type: expected string"

/-- Decode of a `String` field carrying `#[serde(default = "default_0x")]`:
a missing key falls back to `"0x"`; a present key must be a string. -/
def decodeTrieField : Option Json → Except String String
  | none => Except.ok default_0x
  | some (Json.str s) => Except.ok s
  | some _ => Except.error "invalid type: expected string"

/-- Decode of a required `Vec` field of opaque elements. -/
def decodeListField (name : String) : Option Json → Except String (List Json)
  | none => Except.error ("missing field " ++ name)
  | some (Json.arr xs) => Except.ok xs
  | some _ => Except.error "invalid type: expected array"

/-- Serde deserialization of `TransactionSimulationInfo` from a JSON value,
fields resolved by their `camelCase` names, required fields erroring when
absent and the `trieHash*` fields defaulting to `"0x"`. -/
def TransactionSimulationInfo.fromJson (j : Json) :
    Except String TransactionSimulationInfo :=
  match j with
  | Json.obj fields =>
      match decodeTraceField (lookupField fields "traceDebugInfo") with
      | Except.error e => Except.error e
      | Except.ok t =>
          match decodeU64Field "totalGasUsed" (lookupField fields "totalGasUsed") with
          | Except.error e => Except.error e
          | Except.ok g =>
              match decodeTrieField (lookupField fields "trieHashAfter") with
              | Except.error e => Except.error e
              | Except.ok a =>
                  match decodeTrieField (lookupField fields "trieHashBefore") with
                  | Except.error e => Except.error e
                  | Except.ok b =>
                      match decodeListField "txLogs" (lookupField fields "txLogs") with
                      | Except.error e => Except.error e
                      | Except.ok l =>
                          match decodeListField "txReceipts" (lookupField fields "txReceipts") with
                          | Except.error e => Except.error e
                          | Except.ok r => Except.ok ⟨t, g, a, b, l, r⟩
  | _ => Except.error "invalid type: expected object"

/-! ## Request and response envelopes -/

/-- Generic request envelope (`EthApiPayload<T>`); `id` is a `u64`. -/
structure EthApiPayload (T : Type) where
  jsonrpc : String
  method : String
  params : T
  id : Nat

/-- Generic response envelope (`EthApiResponse<T>`). -/
structure EthApiResponse (T : Type) where
  jsonrpc : String
  result : T
  id : Nat

/-- Params tuple of `simulate_transactions_bundle`, in the order the source
constructs it: `(txs_bundle, block_id, block_overrides, state_overrides,
tracing_options)`. -/
abbrev BundleParams :=
  List CallRequest × Option BlockId × Option BlockOverrides ×
    Option StateOverride × Option GethDebugTracingOptions

/-- Serde serialization of the params tuple: a fixed-arity JSON array, each
`Option` slot kept and serialized as `null` when `None`. -/
def bundleParamsToJson : BundleParams → Json
  | (txs, bid, bov, sov, tov) =>
      Json.arr [Json.arr txs, optToJson bid, optToJson bov, optToJson sov,
        optToJson tov]

/-- Serde serialization of the request envelope (`serde_json::to_value` on
the `EthApiPayload` at line 90 of the source). -/
def payloadToJson (p : EthApiPayload BundleParams) : Json :=
  Json.obj [("jsonrpc", Json.str p.jsonrpc), ("method", Json.str p.method),
    ("params", bundleParamsToJson p.params), ("id", Json.num (Int.ofNat p.id))]

/-- Request construction performed by `simulate_transactions_bundle` (lines
78-89 of the source): fixed protocol literals, the positional params tuple,
and `id = 0`. -/
def buildPayload (txs_bundle : List CallRequest) (block_id : Option BlockId)
    (opts : EmulateOptions) : EthApiPayload BundleParams :=
  { jsonrpc := "2.0"
    method := "cgp_simulateTransactionsBundle"
    params := (txs_bundle, block_id, opts.block_overrides, opts.state_overrides,
      opts.tracing_options)
    id := 0 }

/-- Serde deserialization of the response envelope: `jsonrpc` (string),
`result` (via the payload decoder) and `id` (`u64`) are all required. -/
def EthApiResponse.fromJson (decT : Json → Except String T) (j : Json) :
    Except String (EthApiResponse T) :=
  match j with
  | Json.obj fields =>
      match decodeStringField "jsonrpc" (lookupField fields "jsonrpc") with
      | Except.error e => Except.error e
      | Except.ok jr =>
          match lookupField fields "result" with
          | none => Except.error "missing field result"
          | some rv =>
              match decT rv with
              | Except.error e => Except.error e
              | Except.ok res =>
                  match decodeU64Field "id" (lookupField fields "id") with
                  | Except.error e => Except.error e
                  | Except.ok i => Except.ok ⟨jr, res, i⟩
  | _ => Except.error "invalid type: expected object"

/-- Response-body decoding performed at line 101 of the source
(`serde_json::from_str::<EthApiResponse<TransactionSimulationInfo>>`). -/
def decodeResponseBody (body : String) :
    Except String (EthApiResponse TransactionSimulationInfo) :=
  match Json.parse body with
  | none => Except.error "DecodeError: malformed JSON"
  | some j => EthApiResponse.fromJson TransactionSimulationInfo.fromJson j

/-- The whole call (`simulate_transactions_bundle`): build the payload,
hand its JSON to the transport (opaque; may fail with a transport error),
then decode the returned body text. -/
def simulate_transactions_bundle (transport : Json → Except String String)
    (txs_bundle : List CallRequest) (block_id : Option BlockId)
    (opts : EmulateOptions) :
    Except String (EthApiResponse TransactionSimulationInfo) :=
  match transport (payloadToJson (buildPayload txs_bundle block_id opts)) with
  | Except.error e => Except.error e
  | Except.ok body => decodeResponseBody body

/-! ## Helper lemmas -/

/-- Key lookup after removal of a (possibly different) key. -/
theorem lookupField_removeKey (fields : List (String × Json)) (k k' : String) :
    lookupField (removeKey fields k) k'
      = if k' = k then none else lookupField fields k' := by
  induction fields with
  | nil => simp [removeKey, lookupField]
  | cons p rest ih =>
      obtain ⟨pk, pv⟩ := p
      by_cases hpk : pk = k <;> by_cases hk : k' = k <;>
        by_cases hpk' : pk = k' <;>
        simp_all [removeKey, lookupField, List.filter_cons]

/-- Success characterization of the `TransactionSimulationInfo` decoder:
decoding an object succeeds exactly when each field decoder succeeds on the
looked-up key. -/
theorem tsi_fromJson_ok_iff (fields : List (String × Json))
    (info : TransactionSimulationInfo) :
    TransactionSimulationInfo.fromJson (Json.obj fields) = Except.ok info ↔
      decodeTraceField (lookupField fields "traceDebugInfo")
          = Except.ok info.trace_debug_info
        ∧ decodeU64Field "totalGasUsed" (lookupField fields "totalGasUsed")
            = Except.ok info.total_gas_used
        ∧ decodeTrieField (lookupField fields "trieHashAfter")
            = Except.ok info.trie_hash_after
        ∧ decodeTrieField (lookupField fields "trieHashBefore")
            = Except.ok info.trie_hash_before
        ∧ decodeListField "txLogs" (lookupField fields "txLogs")
            = Except.ok info.tx_logs
        ∧ decodeListField "txReceipts" (lookupField fields "txReceipts")
            = Except.ok info.tx_receipts := by
  obtain ⟨t, g, a, b, l, r⟩ := info
  simp only [TransactionSimulationInfo.fromJson]
  cases h1 : decodeTraceField (lookupField fields "traceDebugInfo") <;>
    cases h2 : decodeU64Field "totalGasUsed" (lookupField fields "totalGasUsed") <;>
      cases h3 : decodeTrieField (lookupField fields "trieHashAfter") <;>
        cases h4 : decodeTrieField (lookupField fields "trieHashBefore") <;>
          cases h5 : decodeListField "txLogs" (lookupField fields "txLogs") <;>
            cases h6 : decodeListField "txReceipts" (lookupField fields "txReceipts") <;>
              simp_all

/-- Required fields of `TransactionSimulationInfo` must be present in any
object the decoder accepts. -/
theorem tsi_required_fields_present (fields : List (String × Json))
    (info : TransactionSimulationInfo)
    (h : TransactionSimulationInfo.fromJson (Json.obj fields) = Except.ok info) :
    lookupField fields "totalGasUsed" ≠ none
      ∧ lookupField fields "txLogs" ≠ none
      ∧ lookupField fields "txReceipts" ≠ none := by
  rw [tsi_fromJson_ok_iff] at h
  obtain ⟨-, h2, -, -, h5, h6⟩ := h
  refine ⟨fun hn => ?_, fun hn => ?_, fun hn => ?_⟩
  · rw [hn] at h2; simp [decodeU64Field] at h2
  · rw [hn] at h5; simp [decodeListField] at h5
  · rw [hn] at h6; simp [decodeListField] at h6

/-- Canonical response body wrapping a given `result` value. -/
def mkBody (result : Json) : Json :=
  Json.obj [("jsonrpc", Json.str "2.0"), ("result", result), ("id", Json.num 0)]

/-- Envelope decoding of a canonical body reduces to result decoding. -/
theorem respFromJson_mkBody (result : Json) :
    EthApiResponse.fromJson TransactionSimulationInfo.fromJson (mkBody result)
      = Except.map (fun info => ⟨"2.0", info, 0⟩)
          (TransactionSimulationInfo.fromJson result) := by
  cases h : TransactionSimulationInfo.fromJson result <;>
    simp [mkBody, EthApiResponse.fromJson, lookupField, decodeStringField,
      decodeU64Field, h, Except.map]

/-! ## Claim theorems -/

/-- C1: for every transaction bundle, optional block id, and
`EmulateOptions` value, the built request envelope's `params` field
serializes to an array of exactly 5 elements, in the exact order
`[transactions, blockId, blockOverrides, stateOverrides, tracingOptions]`,
and every absent option occupies its slot as an explicit JSON `null`
rather than being dropped from the array. -/
theorem request_params_positional_five_tuple (txs : List CallRequest)
    (bid : Option BlockId) (opts : EmulateOptions) :
    ∃ slots : List Json,
      Json.lookup (payloadToJson (buildPayload txs bid opts)) "params"
          = some (Json.arr slots)
        ∧ slots.length = 5
        ∧ slots = [Json.arr txs, optToJson bid, optToJson opts.block_overrides,
            optToJson opts.state_overrides, optToJson opts.tracing_options]
        ∧ optToJson (none : Option Json) = Json.null :=
  ⟨[Json.arr txs, optToJson bid, optToJson opts.block_overrides,
      optToJson opts.state_overrides, optToJson opts.tracing_options],
    rfl, rfl, rfl, rfl⟩

/-- C9: for every input, the built request envelope's `id` field equals 0;
the builder's interface takes no id argument, so the caller cannot assign
a different correlation id. -/
theorem request_id_fixed_zero (txs : List CallRequest) (bid : Option BlockId)
    (opts : EmulateOptions) :
    (buildPayload txs bid opts).id = 0
      ∧ Json.lookup (payloadToJson (buildPayload txs bid opts)) "id"
          = some (Json.num 0) :=
  ⟨rfl, rfl⟩

/-- C2 counterexample: the all-unset `EmulateOptions` value serializes with
the `tracingOptions` key present (bound to `null`), refuting the claim that
the standalone serialization omits the key of every unset field: the
`tracing_options` field carries no skip attribute in the source. -/
theorem emulate_options_unset_tracing_serialized_cex :
    EmulateOptions.toJson ⟨none, none, none⟩
        = Json.obj [("tracingOptions", Json.null)]
      ∧ Json.lookup (EmulateOptions.toJson ⟨none, none, none⟩) "tracingOptions"
          = some Json.null :=
  ⟨rfl, rfl⟩

/-- C2 amended: in the standalone JSON serialization of `EmulateOptions`,
an unset `stateOverrides` or `blockOverrides` field has its key omitted
entirely, while the `tracingOptions` key is always present, bound to the
serialization of its option (explicit `null` when unset). -/
theorem emulate_options_key_omission_amended (o : EmulateOptions) :
    Json.lookup o.toJson "stateOverrides" = o.state_overrides
      ∧ Json.lookup o.toJson "blockOverrides" = o.block_overrides
      ∧ Json.lookup o.toJson "tracingOptions" = some (optToJson o.tracing_options) := by
  obtain ⟨t, s, b⟩ := o
  cases s <;> cases b <;> exact ⟨rfl, rfl, rfl⟩

/-- C8: the literal truncated body fails to decode with a decode error, and
no partial `TransactionSimulationInfo` value reaches the caller. -/
theorem truncated_body_decode_error :
    simulate_transactions_bundle
        (fun _ => Except.ok "\x7b\"jsonrpc\":\"2.0\"") [] none ⟨none, none, none⟩
      = Except.error "DecodeError: malformed JSON" := rfl

/-- Success of `Except.map` coincides with success of its argument. -/
theorem isOkB_map (f : α → β) (x : Except String α) :
    isOkB (Except.map f x) = isOkB x := by
  cases x <;> rfl

/-- C3: for every response body whose result object is otherwise
well-formed (it decodes successfully) but omits the `trieHashBefore` key,
the `trieHashAfter` key, or both, decoding succeeds and the decoded
`TransactionSimulationInfo` has the literal string `"0x"` for each omitted
field. -/
theorem decode_defaults_missing_trie_hashes (fields : List (String × Json))
    (info : TransactionSimulationInfo) (b a : Bool)
    (h : TransactionSimulationInfo.fromJson (Json.obj fields) = Except.ok info) :
    EthApiResponse.fromJson TransactionSimulationInfo.fromJson
        (mkBody (Json.obj (removeIf b "trieHashBefore"
          (removeIf a "trieHashAfter" fields))))
      = Except.ok ⟨"2.0",
          { info with
            trie_hash_before := if b then "0x" else info.trie_hash_before
            trie_hash_after := if a then "0x" else info.trie_hash_after }, 0⟩ := by
  rw [tsi_fromJson_ok_iff] at h
  obtain ⟨h1, h2, h3, h4, h5, h6⟩ := h
  rw [respFromJson_mkBody]
  have htsi : TransactionSimulationInfo.fromJson
      (Json.obj (removeIf b "trieHashBefore" (removeIf a "trieHashAfter" fields)))
      = Except.ok { info with
          trie_hash_before := if b then "0x" else info.trie_hash_before
          trie_hash_after := if a then "0x" else info.trie_hash_after } := by
    rw [tsi_fromJson_ok_iff]
    cases a <;> cases b <;>
      simp_all [removeIf, lookupField_removeKey, decodeTrieField, default_0x]
  rw [htsi]
  rfl

/-- C3 witness: a concrete result object carrying non-`"0x"` trie hashes
decodes to `"0x"` for both fields once both keys are removed. -/
theorem decode_defaults_missing_trie_hashes_witness :
    EthApiResponse.fromJson TransactionSimulationInfo.fromJson
        (mkBody (Json.obj (removeIf true "trieHashBefore"
          (removeIf true "trieHashAfter"
            [("totalGasUsed", Json.num 21000), ("trieHashAfter", Json.str "0xaa"),
              ("trieHashBefore", Json.str "0xbb"), ("txLogs", Json.arr []),
              ("txReceipts", Json.arr [])]))))
      = Except.ok ⟨"2.0", ⟨none, 21000, "0x", "0x", [], []⟩, 0⟩ := by
  have := decode_defaults_missing_trie_hashes
    [("totalGasUsed", Json.num 21000), ("trieHashAfter", Json.str "0xaa"),
      ("trieHashBefore", Json.str "0xbb"), ("txLogs", Json.arr []),
      ("txReceipts", Json.arr [])]
    ⟨none, 21000, "0xaa", "0xbb", [], []⟩ true true rfl
  simpa using this

/-- C4: for every response body whose result object is otherwise
well-formed but omits the `traceDebugInfo` key, decoding succeeds with an
absent (`none`) trace field, and that absent value is distinguishable from
a present-but-empty trace sequence, which the decoder produces only for a
present empty array. -/
theorem decode_missing_trace_absent (fields : List (String × Json))
    (info : TransactionSimulationInfo)
    (h : TransactionSimulationInfo.fromJson (Json.obj fields) = Except.ok info) :
    EthApiResponse.fromJson TransactionSimulationInfo.fromJson
        (mkBody (Json.obj (removeKey fields "traceDebugInfo")))
        = Except.ok ⟨"2.0", { info with trace_debug_info := none }, 0⟩
      ∧ (none : Option (List GethTrace)) ≠ some ([] : List GethTrace)
      ∧ decodeTraceField (some (Json.arr []))
          = Except.ok (some ([] : List GethTrace)) := by
  refine ⟨?_, by simp, rfl⟩
  rw [tsi_fromJson_ok_iff] at h
  obtain ⟨h1, h2, h3, h4, h5, h6⟩ := h
  rw [respFromJson_mkBody]
  have htsi : TransactionSimulationInfo.fromJson
      (Json.obj (removeKey fields "traceDebugInfo"))
      = Except.ok { info with trace_debug_info := none } := by
    rw [tsi_fromJson_ok_iff]
    simp_all [lookupField_removeKey, decodeTraceField]
  rw [htsi]
  rfl

/-- C4 witness: removing `traceDebugInfo` from a concrete result object
that carried a present empty trace array yields an absent trace field. -/
theorem decode_missing_trace_absent_witness :
    EthApiResponse.fromJson TransactionSimulationInfo.fromJson
        (mkBody (Json.obj (removeKey
          [("traceDebugInfo", Json.arr []), ("totalGasUsed", Json.num 21000),
            ("txLogs", Json.arr []), ("txReceipts", Json.arr [])]
          "traceDebugInfo")))
      = Except.ok ⟨"2.0", ⟨none, 21000, "0x", "0x", [], []⟩, 0⟩ := by
  have := decode_missing_trace_absent
    [("traceDebugInfo", Json.arr []), ("totalGasUsed", Json.num 21000),
      ("txLogs", Json.arr []), ("txReceipts", Json.arr [])]
    ⟨some [], 21000, "0x", "0x", [], []⟩ rfl
  simpa using this.1

/-- C5: for every response body whose result object omits any one of the
keys `totalGasUsed`, `txLogs`, or `txReceipts`, decoding fails; these
fields are required and have no defaults. -/
theorem decode_missing_required_field_fails (fields : List (String × Json)) :
    (lookupField fields "totalGasUsed" = none →
        isOkB (EthApiResponse.fromJson TransactionSimulationInfo.fromJson
          (mkBody (Json.obj fields))) = false)
      ∧ (lookupField fields "txLogs" = none →
          isOkB (EthApiResponse.fromJson TransactionSimulationInfo.fromJson
            (mkBody (Json.obj fields))) = false)
      ∧ (lookupField fields "txReceipts" = none →
          isOkB (EthApiResponse.fromJson TransactionSimulationInfo.fromJson
            (mkBody (Json.obj fields))) = false) := by
  refine ⟨fun hn => ?_, fun hn => ?_, fun hn => ?_⟩
  · rw [respFromJson_mkBody, isOkB_map]
    cases hres : TransactionSimulationInfo.fromJson (Json.obj fields) with
    | error e => rfl
    | ok info => exact absurd hn (tsi_required_fields_present fields info hres).1
  · rw [respFromJson_mkBody, isOkB_map]
    cases hres : TransactionSimulationInfo.fromJson (Json.obj fields) with
    | error e => rfl
    | ok info => exact absurd hn (tsi_required_fields_present fields info hres).2.1
  · rw [respFromJson_mkBody, isOkB_map]
    cases hres : TransactionSimulationInfo.fromJson (Json.obj fields) with
    | error e => rfl
    | ok info => exact absurd hn (tsi_required_fields_present fields info hres).2.2

/-- C5 witness: a body whose result object is empty (all three required
keys absent) fails to decode. -/
theorem decode_missing_required_field_fails_witness :
    isOkB (EthApiResponse.fromJson TransactionSimulationInfo.fromJson
        (mkBody (Json.obj []))) = false :=
  (decode_missing_required_field_fails []).1 rfl

/-- Success characterization of the response-envelope decoder. -/
theorem resp_fromJson_ok_iff (fields : List (String × Json))
    (r : EthApiResponse TransactionSimulationInfo) :
    EthApiResponse.fromJson TransactionSimulationInfo.fromJson (Json.obj fields)
        = Except.ok r ↔
      decodeStringField "jsonrpc" (lookupField fields "jsonrpc")
          = Except.ok r.jsonrpc
        ∧ (∃ rv, lookupField fields "result" = some rv
            ∧ TransactionSimulationInfo.fromJson rv = Except.ok r.result)
        ∧ decodeU64Field "id" (lookupField fields "id") = Except.ok r.id := by
  obtain ⟨jr, res, i⟩ := r
  simp only [EthApiResponse.fromJson]
  cases h1 : decodeStringField "jsonrpc" (lookupField fields "jsonrpc") with
  | error e => simp_all
  | ok jv =>
      cases h2 : lookupField fields "result" with
      | none => simp_all
      | some rv =>
          cases h3 : TransactionSimulationInfo.fromJson rv with
          | error e => simp_all
          | ok res2 =>
              cases h4 : decodeU64Field "id" (lookupField fields "id") with
              | error e => simp_all
              | ok i2 => simp_all

/-- C6 counterexample: for a submitted bundle of 1 transaction, the decoder
accepts a well-formed response carrying 2 receipts — more than one receipt
per transaction and a count exceeding the bundle length — refuting the
claim that every accepted response has exactly one receipt per transaction
and counts bounded by the bundle length. -/
theorem decoder_accepts_excess_receipts_cex :
    Except.map (fun r => (r.result.tx_receipts.length, r.result.tx_logs.length))
        (simulate_transactions_bundle
          (fun _ => Except.ok "\x7b\"jsonrpc\":\"2.0\",\"result\":\x7b\"totalGasUsed\":21000,\"txLogs\":[],\"txReceipts\":[\x7b\x7d,\x7b\x7d]\x7d,\"id\":0\x7d")
          [Json.null] none ⟨none, none, none⟩)
        = Except.ok (2, 0)
      ∧ [(Json.null : CallRequest)].length = 1 :=
  ⟨rfl, rfl⟩

/-- C6 amended: the decoder performs no cardinality validation against the
submitted bundle; for every receipts and logs arrays in an otherwise
well-formed response, decoding succeeds and returns them verbatim,
whatever their lengths relative to the bundle. -/
theorem decoder_counts_passthrough_amended (receipts logs : List Json)
    (gas : Nat) (hgas : gas < 2 ^ 64) :
    EthApiResponse.fromJson TransactionSimulationInfo.fromJson
        (mkBody (Json.obj [("totalGasUsed", Json.num (gas : Int)),
          ("txLogs", Json.arr logs), ("txReceipts", Json.arr receipts)]))
      = Except.ok ⟨"2.0", ⟨none, gas, "0x", "0x", logs, receipts⟩, 0⟩ := by
  rw [respFromJson_mkBody]
  have htsi : TransactionSimulationInfo.fromJson
      (Json.obj [("totalGasUsed", Json.num (gas : Int)),
        ("txLogs", Json.arr logs), ("txReceipts", Json.arr receipts)])
      = Except.ok ⟨none, gas, "0x", "0x", logs, receipts⟩ := by
    rw [tsi_fromJson_ok_iff]
    refine ⟨rfl, ?_, rfl, rfl, rfl, rfl⟩
    show decodeU64Field "totalGasUsed" (some (Json.num (gas : Int)))
      = Except.ok gas
    simp only [decodeU64Field]
    rw [if_pos ⟨Int.natCast_nonneg gas, by exact_mod_cast hgas⟩]
    exact congrArg Except.ok (by omega)
  rw [htsi]
  rfl

/-- C6 amended witness: a response carrying two receipts and no logs is
decoded verbatim. -/
theorem decoder_counts_passthrough_amended_witness :
    EthApiResponse.fromJson TransactionSimulationInfo.fromJson
        (mkBody (Json.obj [("totalGasUsed", Json.num ((21000 : Nat) : Int)),
          ("txLogs", Json.arr []),
          ("txReceipts", Json.arr [Json.obj [], Json.obj []])]))
      = Except.ok ⟨"2.0", ⟨none, 21000, "0x", "0x", [],
          [Json.obj [], Json.obj []]⟩, 0⟩ :=
  decoder_counts_passthrough_amended [Json.obj [], Json.obj []] [] 21000
    (by norm_num)

/-- C7 counterexample: a response body that is well-formed except for the
numeric id `-1` fails to decode (the envelope's `id` is a `u64`), refuting
the claim that decoding succeeds for every numeric id value; the identical
body with id `0` decodes successfully. -/
theorem decode_negative_numeric_id_cex :
    isOkB (decodeResponseBody "\x7b\"jsonrpc\":\"2.0\",\"result\":\x7b\"totalGasUsed\":21000,\"txLogs\":[],\"txReceipts\":[]\x7d,\"id\":-1\x7d")
        = false
      ∧ isOkB (decodeResponseBody "\x7b\"jsonrpc\":\"2.0\",\"result\":\x7b\"totalGasUsed\":21000,\"txLogs\":[],\"txReceipts\":[]\x7d,\"id\":0\x7d")
          = true :=
  ⟨rfl, rfl⟩

/-- C7 amended: for every otherwise well-formed response body and every id
value representable as a `u64`, decoding succeeds and returns that id
unchanged; the decoder takes no request id and performs no correlation
check (the request id is always 0, yet any `u64` response id is
accepted). -/
theorem response_id_passthrough_amended (rv : Json)
    (info : TransactionSimulationInfo) (jr : String) (i : Nat) (hi : i < 2 ^ 64)
    (h : TransactionSimulationInfo.fromJson rv = Except.ok info) :
    EthApiResponse.fromJson TransactionSimulationInfo.fromJson
        (Json.obj [("jsonrpc", Json.str jr), ("result", rv),
          ("id", Json.num (i : Int))])
      = Except.ok ⟨jr, info, i⟩ := by
  rw [resp_fromJson_ok_iff]
  refine ⟨rfl, ⟨rv, rfl, h⟩, ?_⟩
  show decodeU64Field "id" (some (Json.num (i : Int))) = Except.ok i
  simp only [decodeU64Field]
  rw [if_pos ⟨Int.natCast_nonneg i, by exact_mod_cast hi⟩, Int.toNat_natCast]

/-- C7 amended witness: a response whose id is 7 decodes to id 7 even
though every request is sent with id 0. -/
theorem response_id_passthrough_amended_witness :
    EthApiResponse.fromJson TransactionSimulationInfo.fromJson
        (Json.obj [("jsonrpc", Json.str "2.0"),
          ("result", Json.obj [("totalGasUsed", Json.num 21000),
            ("txLogs", Json.arr []), ("txReceipts", Json.arr [])]),
          ("id", Json.num ((7 : Nat) : Int))])
      = Except.ok ⟨"2.0", ⟨none, 21000, "0x", "0x", [], []⟩, 7⟩ :=
  response_id_passthrough_amended
    (Json.obj [("totalGasUsed", Json.num 21000), ("txLogs", Json.arr []),
      ("txReceipts", Json.arr [])])
    ⟨none, 21000, "0x", "0x", [], []⟩ "2.0" 7 (by norm_num) rfl

/-- C10: for every otherwise well-formed response body whose result object
carries any string values for `trieHashBefore` and `trieHashAfter`
(including values other than `"0x"`), decoding succeeds and returns those
strings unchanged; the decoder never rejects a response for violating the
`"0x"` trie-hash invariant. -/
theorem decoder_accepts_any_trie_hash_strings (fields : List (String × Json))
    (info : TransactionSimulationInfo) (sb sa : String)
    (h : TransactionSimulationInfo.fromJson (Json.obj fields) = Except.ok info) :
    EthApiResponse.fromJson TransactionSimulationInfo.fromJson
        (mkBody (Json.obj (("trieHashBefore", Json.str sb)
          :: ("trieHashAfter", Json.str sa)
          :: removeKey (removeKey fields "trieHashBefore") "trieHashAfter")))
      = Except.ok ⟨"2.0",
          { info with trie_hash_before := sb, trie_hash_after := sa }, 0⟩ := by
  rw [tsi_fromJson_ok_iff] at h
  obtain ⟨h1, h2, h3, h4, h5, h6⟩ := h
  rw [respFromJson_mkBody]
  have htsi : TransactionSimulationInfo.fromJson
      (Json.obj (("trieHashBefore", Json.str sb)
        :: ("trieHashAfter", Json.str sa)
        :: removeKey (removeKey fields "trieHashBefore") "trieHashAfter"))
      = Except.ok { info with trie_hash_before := sb, trie_hash_after := sa } := by
    rw [tsi_fromJson_ok_iff]
    simp_all [lookupField, lookupField_removeKey, decodeTrieField]
  rw [htsi]
  rfl

/-- C10 witness: trie hashes `"0xdead"` and `"0xbeef"`, violating the
`"0x"` invariant, are decoded unchanged. -/
theorem decoder_accepts_any_trie_hash_strings_witness :
    EthApiResponse.fromJson TransactionSimulationInfo.fromJson
        (mkBody (Json.obj (("trieHashBefore", Json.str "0xdead")
          :: ("trieHashAfter", Json.str "0xbeef")
          :: removeKey (removeKey
              [("totalGasUsed", Json.num 21000), ("txLogs", Json.arr []),
                ("txReceipts", Json.arr [])] "trieHashBefore") "trieHashAfter")))
      = Except.ok ⟨"2.0", ⟨none, 21000, "0xbeef", "0xdead", [], []⟩, 0⟩ := by
  have := decoder_accepts_any_trie_hash_strings
    [("totalGasUsed", Json.num 21000), ("txLogs", Json.arr []),
      ("txReceipts", Json.arr [])]
    ⟨none, 21000, "0x", "0x", [], []⟩ "0xdead" "0xbeef" rfl
  simpa using this
